import Mathlib

/-!
Verification of the hybrid document-classification engine in
`src/predict.py` (class `DocumentClassifier`).

The engine's decision logic is pure arithmetic over the outcomes of
regular-expression / substring matches and the base statistical model's
output.  The embedding therefore represents, for one input text,

  * which pattern of each fixed pattern bank matched (`List Bool`, one
    entry per pattern of the bank, in source order), and
  * the base model's behaviour on that text (`ModelApp`: either it raises
    or it returns its arg-max class, the corresponding maximal
    probability, and its full probability distribution),

and translates every scoring, fusion and calibration step of the source
faithfully over `ℚ` (the Python constants 0.55, 0.45, 0.03, … are exact
decimal literals).  The TF-IDF/Naive-Bayes pipeline itself is external
library code (scikit-learn) and enters only through `ModelApp`.
-/

namespace Papertrail

/-- The fixed category enumeration, `self.categories` in
`DocumentClassifier.__init__`: `['invoice', 'memo', 'legal', 'report',
'contract', 'other']`. -/
inductive Cat where
  | invoice
  | memo
  | legal
  | report
  | contract
  | other
deriving DecidableEq

/-- The category list in source order (`self.categories`). -/
def categories : List Cat :=
  [Cat.invoice, Cat.memo, Cat.legal, Cat.report, Cat.contract, Cat.other]

/-- Position of a category in the fixed enumeration order. -/
def catIdx : Cat → ℕ
  | Cat.invoice => 0
  | Cat.memo => 1
  | Cat.legal => 2
  | Cat.report => 3
  | Cat.contract => 4
  | Cat.other => 5

/-- The classes of the fitted scikit-learn model (`self.model.classes_`),
which sklearn stores sorted alphabetically; used by `predict_documents`
to build the reported probability dictionary via
`dict(zip(classes, probabilities))`. -/
def sklearnClasses : List Cat :=
  [Cat.contract, Cat.invoice, Cat.legal, Cat.memo, Cat.other, Cat.report]

/-- Match outcomes of all fixed pattern banks of `_setup_format_features`,
`_analyze_document_format` and `_apply_memo_other_distinction` on one
(lower-cased) input text.  Each `List Bool` holds one entry per regex of
the corresponding bank, in source order (`self.structure_patterns` has
11/18/10/10/12/20 patterns for invoice/memo/legal/report/contract/other,
`self.anti_patterns` has 7 patterns each for memo and other,
`memo_indicators` has 12 entries, `memo_structure_patterns` has 4).  The
Booleans say whether `re.search(pattern, text_lower)` succeeded. -/
structure TextFeatures where
  /-- per category, which of `self.structure_patterns[category]` matched -/
  structMatched : Cat → List Bool
  /-- which of `self.anti_patterns['memo']` matched -/
  antiMemoMatched : List Bool
  /-- which of `self.anti_patterns['other']` matched -/
  antiOtherMatched : List Bool
  /-- per category, which high-tier keywords of `self.keyword_weights` occur -/
  kwHighMatched : Cat → List Bool
  /-- per category, which medium-tier keywords occur -/
  kwMedMatched : Cat → List Bool
  /-- per category, which low-tier keywords occur -/
  kwLowMatched : Cat → List Bool
  /-- a line contains ten `=` and an invoice word occurs (`+0.3`) -/
  invoiceSeparatorHeader : Bool
  /-- one of "invoice number"/"amount due"/"payment terms" occurs (`+0.25`) -/
  invoiceStrongPhrases : Bool
  /-- "SIGNATURES" or "IN WITNESS WHEREOF" occurs (`+0.4`) -/
  contractSignatureBlock : Bool
  /-- at least two 16-`=` separators and an agreement word (`+0.3`) -/
  contractSectionSeparators : Bool
  /-- one of "agreement entered"/"parties agree"/"effective date" (`+0.25`) -/
  contractStrongPhrases : Bool
  /-- number of lines starting with TO:/FROM:/SUBJECT:/DATE: -/
  memoHeaderLines : ℕ
  /-- one of "memorandum"/"internal memo"/"staff announcement" (`+0.3`) -/
  memoStrongPhrases : Bool
  /-- one of "Superior Court"/"Case No."/"Plaintiff v." occurs (`+0.4`) -/
  legalCourtPhrases : Bool
  /-- one of "legal notice"/"court case"/"attorney representation" (`+0.25`) -/
  legalStrongPhrases : Bool
  /-- "EXECUTIVE SUMMARY" or "QUARTERLY REPORT" occurs upper-cased (`+0.4`) -/
  reportHeaderCaps : Bool
  /-- one of "performance report"/"financial analysis"/"revenue growth" -/
  reportStrongPhrases : Bool
  /-- one of "technical ..."/"user manual"/"system requirements" (`+0.3`) -/
  otherStrongPhrases : Bool
  /-- which of the 12 `memo_indicators` regexes matched -/
  memoIndicatorMatched : List Bool
  /-- which of the technical/other `other_indicators` regexes matched -/
  otherIndicatorMatched : List Bool
  /-- which of the 4 `memo_structure_patterns` regexes matched -/
  memoStructureMatched : List Bool
  /-- which of the `technical_patterns` regexes matched -/
  technicalMatched : List Bool

/-- The `pattern_matches += 1` counting loop of
`_calculate_enhanced_scores`. -/
def countMatched (ms : List Bool) : ℕ :=
  ms.foldl (fun n b => if b then n + 1 else n) 0

/-- Structural pattern contribution of one category
(`_calculate_enhanced_scores`):
`if pattern_matches > 0: scores[category] += min(pattern_matches / len(patterns), 1.0) * 0.6`. -/
def structureContribution (ms : List Bool) : ℚ :=
  if countMatched ms > 0 then
    min ((countMatched ms : ℚ) / (ms.length : ℚ)) 1 * (6/10)
  else 0

/-- Anti-pattern penalty accumulation (`penalty += 0.4` per match, then
`scores[category] -= min(penalty, 0.8)`). -/
def antiPenaltyOf (ms : List Bool) : ℚ :=
  min (ms.foldl (fun p b => if b then p + 4/10 else p) 0) (8/10)

/-- The anti-pattern penalty applied to each category: the source's
`self.anti_patterns` dictionary only has the keys `memo` and `other`,
so only those two categories are ever penalized. -/
def antiPenaltyFor (tf : TextFeatures) : Cat → ℚ
  | Cat.memo => antiPenaltyOf tf.antiMemoMatched
  | Cat.other => antiPenaltyOf tf.antiOtherMatched
  | _ => 0

/-- Keyword-weight score of one category: `0.4` per matching high-tier
keyword, `0.3` per medium, `0.15` per low, then
`scores[category] += min(keyword_score, 0.8)`. -/
def keywordScoreOf (high med low : List Bool) : ℚ :=
  min
    (low.foldl (fun k b => if b then k + 15/100 else k)
      (med.foldl (fun k b => if b then k + 3/10 else k)
        (high.foldl (fun k b => if b then k + 4/10 else k) 0)))
    (8/10)

/-- Embedding of `_analyze_document_format`: a sum of fixed bonuses,
one per satisfied format condition. -/
def analyzeDocumentFormat (tf : TextFeatures) : Cat → ℚ
  | Cat.invoice =>
      (if tf.invoiceSeparatorHeader then 3/10 else 0)
        + (if tf.invoiceStrongPhrases then 25/100 else 0)
  | Cat.memo =>
      (if tf.memoHeaderLines ≥ 2 then 4/10
        else if tf.memoHeaderLines ≥ 1 then 2/10 else 0)
        + (if tf.memoStrongPhrases then 3/10 else 0)
  | Cat.legal =>
      (if tf.legalCourtPhrases then 4/10 else 0)
        + (if tf.legalStrongPhrases then 25/100 else 0)
  | Cat.report =>
      (if tf.reportHeaderCaps then 4/10 else 0)
        + (if tf.reportStrongPhrases then 25/100 else 0)
  | Cat.contract =>
      (if tf.contractSignatureBlock then 4/10 else 0)
        + (if tf.contractSectionSeparators then 3/10 else 0)
        + (if tf.contractStrongPhrases then 25/100 else 0)
  | Cat.other => if tf.otherStrongPhrases then 3/10 else 0

/-- Pointwise update used to embed `scores[c] += delta` /
`scores[c] -= delta`. -/
def addCat (s : Cat → ℚ) (c : Cat) (delta : ℚ) : Cat → ℚ :=
  fun d => if d = c then s d + delta else s d

/-- The `other_score += 2` counting loop of
`_apply_memo_other_distinction` ("Double weight for other indicators"). -/
def otherIndicatorScore (ms : List Bool) : ℕ :=
  ms.foldl (fun n b => if b then n + 2 else n) 0

/-- First adjustment block of `_apply_memo_other_distinction`
(clear-memo / clear-other / more-memo / more-other chain). -/
def disambStage1 (memoScore otherScore : ℕ) (s : Cat → ℚ) : Cat → ℚ :=
  if memoScore > 0 ∧ otherScore = 0 then
    addCat (addCat s Cat.memo (6/10)) Cat.other (-(5/10))
  else if otherScore > 0 ∧ memoScore = 0 then
    addCat (addCat s Cat.other (8/10)) Cat.memo (-(7/10))
  else if memoScore > otherScore then
    addCat (addCat s Cat.memo (min (((memoScore : ℚ) - otherScore) * (4/10)) (5/10)))
      Cat.other (-(min (((memoScore : ℚ) - otherScore) * (4/10)) (5/10)))
  else if otherScore > memoScore then
    addCat (addCat s Cat.other (min (((otherScore : ℚ) - memoScore) * (5/10)) (8/10)))
      Cat.memo (-(min (((otherScore : ℚ) - memoScore) * (5/10)) (8/10) * (3/2)))
  else s

/-- Second block: memo structure (TO/FROM/SUBJECT/DATE) reinforcement,
applied only when no technical indicator matched. -/
def disambStage2 (memoStructureMatches otherScore : ℕ) (s : Cat → ℚ) : Cat → ℚ :=
  if memoStructureMatches ≥ 3 ∧ otherScore = 0 then
    addCat (addCat s Cat.memo (6/10)) Cat.other (-(5/10))
  else if memoStructureMatches ≥ 2 ∧ otherScore = 0 then
    addCat (addCat s Cat.memo (4/10)) Cat.other (-(3/10))
  else s

/-- Third block: technical document structure markers. -/
def disambStage3 (technicalMatches : ℕ) (s : Cat → ℚ) : Cat → ℚ :=
  if technicalMatches ≥ 2 then
    addCat (addCat s Cat.other (7/10)) Cat.memo (-(6/10))
  else if technicalMatches ≥ 1 then
    addCat (addCat s Cat.other (4/10)) Cat.memo (-(3/10))
  else s

/-- Final block: mixed signals (`other_score > 0 and memo_score > 0`)
give other `+0.6` and memo `-0.8`. -/
def disambStage4 (memoScore otherScore : ℕ) (s : Cat → ℚ) : Cat → ℚ :=
  if otherScore > 0 ∧ memoScore > 0 then
    addCat (addCat s Cat.other (6/10)) Cat.memo (-(8/10))
  else s

/-- Embedding of `_apply_memo_other_distinction`: counts the indicator
matches as the source's loops do, then applies the four adjustment
blocks in source order. -/
def applyMemoOtherDistinction (tf : TextFeatures) (s : Cat → ℚ) : Cat → ℚ :=
  disambStage4 (countMatched tf.memoIndicatorMatched)
    (otherIndicatorScore tf.otherIndicatorMatched)
    (disambStage3 (countMatched tf.technicalMatched)
      (disambStage2 (countMatched tf.memoStructureMatched)
        (otherIndicatorScore tf.otherIndicatorMatched)
        (disambStage1 (countMatched tf.memoIndicatorMatched)
          (otherIndicatorScore tf.otherIndicatorMatched) s)))

/-- The rule scores accumulated by `_calculate_enhanced_scores` before
the memo/other disambiguation: structural patterns, anti-pattern
penalties, keyword weights and format analysis (all additive). -/
def preDisambScores (tf : TextFeatures) : Cat → ℚ :=
  fun c =>
    structureContribution (tf.structMatched c)
      - antiPenaltyFor tf c
      + keywordScoreOf (tf.kwHighMatched c) (tf.kwMedMatched c) (tf.kwLowMatched c)
      + analyzeDocumentFormat tf c

/-- Embedding of `_calculate_enhanced_scores`. -/
def calculateEnhancedScores (tf : TextFeatures) : Cat → ℚ :=
  applyMemoOtherDistinction tf (preDisambScores tf)

/-- One category's fused score in `_combine_predictions`:
`ml_weight * ml_score + pattern_weight * pattern_score` with
`ml_weight = 0.55`, `pattern_weight = 0.45`, and `ml_score` the base
confidence for the base model's own prediction and the flat `0.03`
baseline otherwise. -/
def combinedScore (basePred : Cat) (baseConf : ℚ) (scores : Cat → ℚ) (c : Cat) : ℚ :=
  (55/100) * (if c = basePred then baseConf else 3/100) + (45/100) * scores c

/-- Embedding of `max(combined_scores, key=combined_scores.get)`:
Python's `max` keeps the first element of the iteration order
(`self.categories`, invoice first) and replaces it only on a strictly
greater key, so the first maximizer in enumeration order wins. -/
def argmaxCat (f : Cat → ℚ) : Cat :=
  [Cat.memo, Cat.legal, Cat.report, Cat.contract, Cat.other].foldl
    (fun best c => if f c > f best then c else best) Cat.invoice

/-- The `confidence_boost` local of `_combine_predictions`: the
progressive boost chosen by the strength of the winning score (only
read when `best_score > 0.4`). -/
def progressiveBoost (bestScore : ℚ) : ℚ :=
  if bestScore > 7/10 then min ((bestScore - 7/10) * (12/10)) (25/100)
  else if bestScore > 5/10 then min ((bestScore - 5/10) * 1) (2/10)
  else min ((bestScore - 4/10) * (8/10)) (15/100)

/-- The `final_confidence` value of `_combine_predictions` before the
pattern-strength boost: `min(best_score + confidence_boost, 1.0)` when
`best_score > 0.4`, otherwise `best_score` unchanged. -/
def boostedConfidence (bestScore : ℚ) : ℚ :=
  if bestScore > 4/10 then min (bestScore + progressiveBoost bestScore) 1 else bestScore

/-- Confidence calibration of `_combine_predictions`: the progressive
boost on the winning score, then the extra
`min(pattern_strength * 0.1, 0.1)` boost when the winning category's
rule score exceeds 0.6, clamped to 1. -/
def finalConfidence (bestScore patternStrength : ℚ) : ℚ :=
  if patternStrength > 6/10 then
    min (boostedConfidence bestScore + min (patternStrength * (1/10)) (1/10)) 1
  else boostedConfidence bestScore

/-- Embedding of `_combine_predictions`: fuse, pick the best category,
calibrate its confidence. -/
def combinePredictions (basePred : Cat) (baseConf : ℚ) (scores : Cat → ℚ) : Cat × ℚ :=
  let best := argmaxCat (combinedScore basePred baseConf scores)
  (best,
    finalConfidence (combinedScore basePred baseConf scores best) (scores best))

/-- Outcome of applying the (external, scikit-learn) base model to one
text: it either raises, or returns its arg-max class `pred`, the maximal
probability `conf = max(predict_proba)`, and the full distribution. -/
inductive ModelApp where
  | raises
  | returns (pred : Cat) (conf : ℚ) (probs : Cat → ℚ)

/-- A base-model outcome is valid when the reported top probability is
non-negative (it is the maximum of a probability distribution). -/
def ModelApp.valid : ModelApp → Prop
  | ModelApp.raises => True
  | ModelApp.returns _ conf _ => 0 ≤ conf

/-- One document as the classifier sees it: its length data, the match
outcomes of all pattern banks on its text, and the base model's
behaviour on its text. -/
structure DocInput where
  textLength : ℕ
  wordCount : ℕ
  features : TextFeatures
  modelApp : ModelApp

/-- The per-document result record built by `predict_documents`. -/
structure DocResult where
  predicted_category : Cat
  confidence : ℚ
  probabilities : List (Cat × ℚ)
  text_length : ℕ
  word_count : ℕ
deriving DecidableEq

/-- The degraded result of `predict_documents`' `except` branch:
`{'predicted_category': 'other', 'confidence': 0.0, 'probabilities': {},
'text_length': 0, 'word_count': 0}`. -/
def degradedResult : DocResult :=
  DocResult.mk Cat.other 0 [] 0 0

/-- Embedding of `predict_single`: `('other', 0.0)` when no model is
loaded or when the base model raises (the `except` branch), otherwise
the fused prediction. -/
def predict_single (modelLoaded : Bool) (d : DocInput) : Cat × ℚ :=
  if modelLoaded then
    match d.modelApp with
    | ModelApp.raises => (Cat.other, 0)
    | ModelApp.returns pred conf _ =>
        combinePredictions pred conf (calculateEnhancedScores d.features)
  else (Cat.other, 0)

/-- The per-document body of `predict_documents`' loop: on success the
result holds the fused category and calibrated confidence together with
the base model's raw `predict_proba` distribution (zipped with
`model.classes_`) and the text statistics; if the model raises, the
second `predict_proba` call raises too and the `except` branch stores
the degraded result. -/
def classifyOne (d : DocInput) : DocResult :=
  match d.modelApp with
  | ModelApp.raises => degradedResult
  | ModelApp.returns pred conf probs =>
      DocResult.mk
        (combinePredictions pred conf (calculateEnhancedScores d.features)).1
        (combinePredictions pred conf (calculateEnhancedScores d.features)).2
        (sklearnClasses.map (fun c => (c, probs c)))
        d.textLength d.wordCount

/-- Embedding of `predict_documents`: with no model it prints an error
and returns the empty dictionary (`return {}`); otherwise one result per
document, in input order. -/
def predict_documents (modelLoaded : Bool) (docs : List (String × DocInput)) :
    List (String × DocResult) :=
  if modelLoaded then docs.map (fun fd => (fd.1, classifyOne fd.2)) else []

/-- Features of the empty text `""`: every regex of every bank needs at
least one character, no line starts with a memo header, no substring
phrase occurs, so nothing matches. -/
def emptyTextFeatures : TextFeatures :=
  TextFeatures.mk (fun _ => []) [] [] (fun _ => []) (fun _ => []) (fun _ => [])
    false false false false false 0 false false false false false false
    [] [] [] []

/-- Modelled from the spec: the base model's behaviour on the empty
text is scikit-learn library code, absent from `src`.  Spec §4.1 fixes
it: "empty or out-of-vocabulary text → zero vector; downstream model
must handle a zero vector without raising (predict a uniform-ish/
fallback distribution)".  Under a uniform fallback distribution every
class has probability 1/6 and the arg-max resolves to the first class
in `classes_` order, `contract`. -/
def emptyTextModelApp : ModelApp :=
  ModelApp.returns Cat.contract (1/6) (fun _ => 1/6)

/-- The empty document: `len("") = 0`, `len("".split()) = 0`, no
pattern matches, base model behaving as spec §4.1 requires. -/
def emptyDoc : DocInput :=
  DocInput.mk 0 0 emptyTextFeatures emptyTextModelApp

/-- The empty document under a base model that raises on it (the only
way the degraded result can arise for it). -/
def emptyDocIfRaises : DocInput :=
  DocInput.mk 0 0 emptyTextFeatures ModelApp.raises

/-- Structure-pattern matches of a keyword-dense invoice text matching
all 11 invoice structure patterns (e.g. a billing statement containing
"invoice number 12345", "amount due", "billing address", "payment
terms", "net 30 days", "subtotal", "sales tax", "total amount",
"remittance", "account number" and a dollar amount). -/
def invoiceHeavyStructs : Cat → List Bool
  | Cat.invoice => List.replicate 11 true
  | _ => []

/-- High-tier keyword matches of the same invoice text: two matching
high keywords ("invoice", "billing") already reach the 0.8 cap. -/
def invoiceHeavyKwHigh : Cat → List Bool
  | Cat.invoice => [true, true]
  | _ => []

/-- Full feature record of the keyword-dense invoice text: all invoice
structure patterns match, two high-tier invoice keywords match, the
text has a `==========` header with an invoice word and the strong
invoice phrases, nothing else matches. -/
def invoiceHeavyFeatures : TextFeatures :=
  TextFeatures.mk invoiceHeavyStructs [] [] invoiceHeavyKwHigh (fun _ => []) (fun _ => [])
    true true false false false 0 false false false false false false
    [] [] [] []

/-- Feature record of a technical document that also carries one memo
marker: one memo indicator matches, three technical/other indicators
match, two technical structure patterns match (mixed-signal case of
`_apply_memo_other_distinction`, cf. spec scenario 4). -/
def mixedTechFeatures : TextFeatures :=
  TextFeatures.mk (fun _ => []) [] [] (fun _ => []) (fun _ => []) (fun _ => [])
    false false false false false 0 false false false false false false
    [true] [true, true, true] [] [true, true]

/-- A base-model distribution whose arg-max is `memo` (probability 0.4,
all other classes 0.12, summing to 1). -/
def memoTopProbs : Cat → ℚ
  | Cat.memo => 2/5
  | _ => 3/25

/-- The mixed-signal technical document as a batch input: the base
model says `memo`, the rule layer will override to `other`. -/
def mixedTechDoc : DocInput :=
  DocInput.mk 42 7 mixedTechFeatures (ModelApp.returns Cat.memo (2/5) memoTopProbs)

/-- Piecewise confidence rule in the exact shape claim C2 states it:
four cases on the winning fused score `s` with explicit interval
bounds. -/
def specPiecewiseBase (s : ℚ) : ℚ :=
  if s > 7/10 then min (s + min ((s - 7/10) * (12/10)) (25/100)) 1
  else if 5/10 < s ∧ s ≤ 7/10 then min (s + min ((s - 5/10) * 1) (2/10)) 1
  else if 4/10 < s ∧ s ≤ 5/10 then min (s + min ((s - 4/10) * (8/10)) (15/100)) 1
  else s

/-- Claim C2's full calibration rule: the piecewise map of the winning
score, then, when the winning category's raw rule score exceeds 0.6,
a further `min(rule_component × 0.1, 0.1)` clamped to 1. -/
def specCalibratedConfidence (s ruleComponent : ℚ) : ℚ :=
  if ruleComponent > 6/10 then
    min (specPiecewiseBase s + min (ruleComponent * (1/10)) (1/10)) 1
  else specPiecewiseBase s

/-- Expected rule-score vector of `invoiceHeavyFeatures`:
`0.6 + 0.8 + 0.3 + 0.25 = 1.95` for invoice, nothing anywhere else. -/
def invoiceHeavyRule : Cat → ℚ
  | Cat.invoice => 39/20
  | _ => 0

/-- Expected fused scores of `invoiceHeavyFeatures` with base
prediction invoice at confidence 0.9:
`0.55 × 0.9 + 0.45 × 1.95 = 1.3725` for invoice, the `0.55 × 0.03`
floor elsewhere. -/
def invoiceHeavyComb : Cat → ℚ
  | Cat.invoice => 549/400
  | _ => 33/2000

/-- Expected fused scores for the empty text (all rule scores zero)
with base prediction contract at confidence 1/6. -/
def emptyComb : Cat → ℚ
  | Cat.contract => 11/120
  | _ => 33/2000

/-- Expected fused scores for the empty text with base prediction memo
at confidence 1/2 (used to exercise the arg-max tie-break theorem). -/
def halfMemoComb : Cat → ℚ
  | Cat.memo => 11/40
  | _ => 33/2000

/-- Expected rule-score vector of `mixedTechFeatures`: stage 1 gives
other `+0.8` and memo `-1.2`, stage 3 gives other `+0.7` and memo
`-0.6`, stage 4 gives other `+0.6` and memo `-0.8`. -/
def mixedTechRule : Cat → ℚ
  | Cat.other => 21/10
  | Cat.memo => -13/5
  | _ => 0

/-- Expected fused scores of `mixedTechFeatures` with base prediction
memo at confidence 0.4. -/
def mixedTechComb : Cat → ℚ
  | Cat.other => 1923/2000
  | Cat.memo => -19/20
  | _ => 33/2000

theorem foldl_addIf (q : ℚ) (l : List Bool) (a : ℚ) :
    l.foldl (fun p b => if b then p + q else p) a = a + (l.count true : ℚ) * q := by
  induction l generalizing a with
  | nil => simp
  | cons b t ih =>
      cases b
      · simp [List.count_cons, ih]
      · simp [List.count_cons, ih]
        ring

theorem countMatched_eq (l : List Bool) : countMatched l = l.count true := by
  have aux : ∀ (l : List Bool) (a : ℕ),
      l.foldl (fun n b => if b then n + 1 else n) a = a + l.count true := by
    intro l
    induction l with
    | nil => simp
    | cons b t ih =>
      intro a
      cases b
      · simp [List.count_cons, ih]
      · simp [List.count_cons, ih]
        omega
  simpa [countMatched] using aux l 0

theorem otherIndicatorScore_eq (l : List Bool) :
    otherIndicatorScore l = 2 * l.count true := by
  have aux : ∀ (l : List Bool) (a : ℕ),
      l.foldl (fun n b => if b then n + 2 else n) a = a + 2 * l.count true := by
    intro l
    induction l with
    | nil => simp
    | cons b t ih =>
      intro a
      cases b
      · simp [List.count_cons, ih]
      · simp [List.count_cons, ih]
        omega
  simpa [otherIndicatorScore] using aux l 0

theorem structureContribution_nonneg (ms : List Bool) : 0 ≤ structureContribution ms := by
  rw [structureContribution]
  split_ifs with h
  · have h1 : (0:ℚ) ≤ (countMatched ms : ℚ) / (ms.length : ℚ) := by positivity
    have h2 : (0:ℚ) ≤ min ((countMatched ms : ℚ) / (ms.length : ℚ)) 1 :=
      le_min h1 (by norm_num)
    nlinarith
  · exact le_refl 0

theorem keywordScoreOf_nonneg (high med low : List Bool) :
    0 ≤ keywordScoreOf high med low := by
  rw [keywordScoreOf, foldl_addIf, foldl_addIf, foldl_addIf]
  have h1 : (0:ℚ) ≤ 0 + (high.count true : ℚ) * (4/10) + (med.count true : ℚ) * (3/10)
      + (low.count true : ℚ) * (15/100) := by positivity
  exact le_min h1 (by norm_num)

theorem analyzeDocumentFormat_nonneg (tf : TextFeatures) (c : Cat) :
    0 ≤ analyzeDocumentFormat tf c := by
  cases c <;> rw [analyzeDocumentFormat] <;> split_ifs <;> norm_num

theorem disambStage1_preserves (m o : ℕ) (s : Cat → ℚ) (c : Cat)
    (hm : c ≠ Cat.memo) (ho : c ≠ Cat.other) : disambStage1 m o s c = s c := by
  rw [disambStage1]
  split_ifs <;> simp [addCat, hm, ho]

theorem disambStage2_preserves (m o : ℕ) (s : Cat → ℚ) (c : Cat)
    (hm : c ≠ Cat.memo) (ho : c ≠ Cat.other) : disambStage2 m o s c = s c := by
  rw [disambStage2]
  split_ifs <;> simp [addCat, hm, ho]

theorem disambStage3_preserves (t : ℕ) (s : Cat → ℚ) (c : Cat)
    (hm : c ≠ Cat.memo) (ho : c ≠ Cat.other) : disambStage3 t s c = s c := by
  rw [disambStage3]
  split_ifs <;> simp [addCat, hm, ho]

theorem disambStage4_preserves (m o : ℕ) (s : Cat → ℚ) (c : Cat)
    (hm : c ≠ Cat.memo) (ho : c ≠ Cat.other) : disambStage4 m o s c = s c := by
  rw [disambStage4]
  split_ifs <;> simp [addCat, hm, ho]

theorem applyMemoOtherDistinction_preserves (tf : TextFeatures) (s : Cat → ℚ) (c : Cat)
    (hm : c ≠ Cat.memo) (ho : c ≠ Cat.other) :
    applyMemoOtherDistinction tf s c = s c := by
  rw [applyMemoOtherDistinction, disambStage4_preserves _ _ _ _ hm ho,
    disambStage3_preserves _ _ _ hm ho, disambStage2_preserves _ _ _ _ hm ho,
    disambStage1_preserves _ _ _ _ hm ho]

theorem enhancedScores_nonneg (tf : TextFeatures) (c : Cat)
    (hm : c ≠ Cat.memo) (ho : c ≠ Cat.other) :
    0 ≤ calculateEnhancedScores tf c := by
  rw [calculateEnhancedScores, applyMemoOtherDistinction_preserves _ _ _ hm ho, preDisambScores]
  have h0 : antiPenaltyFor tf c = 0 := by
    cases c <;> first | rfl | exact absurd rfl hm | exact absurd rfl ho
  rw [h0]
  have h1 := structureContribution_nonneg (tf.structMatched c)
  have h2 := keywordScoreOf_nonneg (tf.kwHighMatched c) (tf.kwMedMatched c) (tf.kwLowMatched c)
  have h3 := analyzeDocumentFormat_nonneg tf c
  linarith

theorem argmaxCat_le (f : Cat → ℚ) (c : Cat) : f c ≤ f (argmaxCat f) := by
  rw [argmaxCat]
  simp only [List.foldl]
  split_ifs <;> cases c <;> linarith

theorem argmaxCat_first (f : Cat → ℚ) (c : Cat)
    (h : catIdx c < catIdx (argmaxCat f)) : f c < f (argmaxCat f) := by
  rw [argmaxCat] at h ⊢
  simp only [List.foldl] at h ⊢
  split_ifs at h ⊢ <;> cases c <;> simp [catIdx] at h ⊢ <;> linarith

theorem combinePredictions_fst (basePred : Cat) (baseConf : ℚ) (scores : Cat → ℚ) :
    (combinePredictions basePred baseConf scores).1 =
      argmaxCat (combinedScore basePred baseConf scores) := rfl

theorem combinePredictions_snd (basePred : Cat) (baseConf : ℚ) (scores : Cat → ℚ) :
    (combinePredictions basePred baseConf scores).2 =
      finalConfidence
        (combinedScore basePred baseConf scores
          (argmaxCat (combinedScore basePred baseConf scores)))
        (scores (argmaxCat (combinedScore basePred baseConf scores))) := rfl

theorem boostedConfidence_ge_min (s : ℚ) : min s 1 ≤ boostedConfidence s := by
  rw [boostedConfidence, progressiveBoost]
  simp only [min_def]
  split_ifs <;> linarith

theorem boostedConfidence_le_one (s : ℚ) : boostedConfidence s ≤ 1 := by
  rw [boostedConfidence]
  split_ifs with h
  · exact min_le_right _ _
  · linarith [not_lt.mp h]

theorem finalConfidence_ge_min (s ps : ℚ) : min s 1 ≤ finalConfidence s ps := by
  rw [finalConfidence]
  have h1 := boostedConfidence_ge_min s
  split_ifs with h
  · have h2 : (0:ℚ) ≤ min (ps * (1/10)) (1/10) := le_min (by linarith) (by norm_num)
    exact le_min (by linarith) (min_le_right s 1)
  · exact h1

theorem finalConfidence_le_one (s ps : ℚ) : finalConfidence s ps ≤ 1 := by
  rw [finalConfidence]
  have h1 := boostedConfidence_le_one s
  split_ifs with h
  · exact min_le_right _ _
  · exact h1

theorem finalConfidence_nonneg (s ps : ℚ) (hs : 0 ≤ s) : 0 ≤ finalConfidence s ps := by
  have h := finalConfidence_ge_min s ps
  have h2 : (0:ℚ) ≤ min s 1 := le_min hs (by norm_num)
  linarith

theorem winning_score_ge (tf : TextFeatures) (basePred : Cat) (baseConf : ℚ) :
    (55/100) * min baseConf (3/100) ≤
      combinedScore basePred baseConf (calculateEnhancedScores tf)
        (argmaxCat (combinedScore basePred baseConf (calculateEnhancedScores tf))) := by
  have hinv : 0 ≤ calculateEnhancedScores tf Cat.invoice :=
    enhancedScores_nonneg tf Cat.invoice (by decide) (by decide)
  have h1 : (55/100) * min baseConf (3/100) ≤
      combinedScore basePred baseConf (calculateEnhancedScores tf) Cat.invoice := by
    rw [combinedScore]
    split_ifs
    · have := min_le_left baseConf (3/100 : ℚ); nlinarith
    · have := min_le_right baseConf (3/100 : ℚ); nlinarith
  exact le_trans h1 (argmaxCat_le _ Cat.invoice)

theorem emptyTF_scores (c : Cat) : calculateEnhancedScores emptyTextFeatures c = 0 := by
  cases c <;>
    norm_num [emptyTextFeatures, calculateEnhancedScores, applyMemoOtherDistinction,
      preDisambScores, structureContribution, antiPenaltyFor, antiPenaltyOf, keywordScoreOf,
      analyzeDocumentFormat, addCat, countMatched, otherIndicatorScore, disambStage1,
      disambStage2, disambStage3, disambStage4, min_def]

theorem emptyComb_eq (c : Cat) :
    combinedScore Cat.contract (1/6) (calculateEnhancedScores emptyTextFeatures) c =
      emptyComb c := by
  cases c <;> norm_num [combinedScore, emptyTF_scores, emptyComb] <;> decide

theorem emptyArgmax :
    argmaxCat (combinedScore Cat.contract (1/6) (calculateEnhancedScores emptyTextFeatures)) =
      Cat.contract := by
  rw [argmaxCat]
  norm_num [List.foldl, emptyComb_eq, emptyComb]

theorem emptyCombine :
    combinePredictions Cat.contract (1/6) (calculateEnhancedScores emptyTextFeatures) =
      (Cat.contract, 11/120) := by
  have h2 := emptyComb_eq Cat.contract
  rw [emptyComb] at h2
  have hsc := emptyTF_scores Cat.contract
  rw [Prod.ext_iff, combinePredictions_fst, combinePredictions_snd, emptyArgmax, h2, hsc]
  refine ⟨rfl, ?_⟩
  norm_num [finalConfidence, boostedConfidence, progressiveBoost, min_def]

theorem halfMemoComb_eq (c : Cat) :
    combinedScore Cat.memo (1/2) (calculateEnhancedScores emptyTextFeatures) c =
      halfMemoComb c := by
  cases c <;> norm_num [combinedScore, emptyTF_scores, halfMemoComb] <;> decide

theorem halfMemoArgmax :
    argmaxCat (combinedScore Cat.memo (1/2) (calculateEnhancedScores emptyTextFeatures)) =
      Cat.memo := by
  rw [argmaxCat]
  norm_num [List.foldl, halfMemoComb_eq, halfMemoComb]

theorem invoiceHeavy_scores (c : Cat) :
    calculateEnhancedScores invoiceHeavyFeatures c = invoiceHeavyRule c := by
  cases c <;>
    norm_num [invoiceHeavyFeatures, invoiceHeavyStructs, invoiceHeavyKwHigh, invoiceHeavyRule,
      calculateEnhancedScores, applyMemoOtherDistinction, preDisambScores, structureContribution,
      antiPenaltyFor, antiPenaltyOf, keywordScoreOf, analyzeDocumentFormat, addCat, countMatched,
      otherIndicatorScore, disambStage1, disambStage2, disambStage3, disambStage4, min_def,
      List.replicate]

theorem invoiceHeavyComb_eq (c : Cat) :
    combinedScore Cat.invoice (9/10) (calculateEnhancedScores invoiceHeavyFeatures) c =
      invoiceHeavyComb c := by
  cases c <;>
    norm_num [combinedScore, invoiceHeavy_scores, invoiceHeavyRule, invoiceHeavyComb] <;> decide

theorem invoiceHeavyArgmax :
    argmaxCat
        (combinedScore Cat.invoice (9/10) (calculateEnhancedScores invoiceHeavyFeatures)) =
      Cat.invoice := by
  rw [argmaxCat]
  norm_num [List.foldl, invoiceHeavyComb_eq, invoiceHeavyComb]

theorem invoiceHeavyCombine :
    combinePredictions Cat.invoice (9/10) (calculateEnhancedScores invoiceHeavyFeatures) =
      (Cat.invoice, 1) := by
  have h2 := invoiceHeavyComb_eq Cat.invoice
  rw [invoiceHeavyComb] at h2
  have hsc := invoiceHeavy_scores Cat.invoice
  rw [invoiceHeavyRule] at hsc
  rw [Prod.ext_iff, combinePredictions_fst, combinePredictions_snd, invoiceHeavyArgmax, h2, hsc]
  refine ⟨rfl, ?_⟩
  norm_num [finalConfidence, boostedConfidence, progressiveBoost, min_def]

theorem mixedTech_scores (c : Cat) :
    calculateEnhancedScores mixedTechFeatures c = mixedTechRule c := by
  cases c <;>
    norm_num +decide [mixedTechFeatures, mixedTechRule, calculateEnhancedScores,
      applyMemoOtherDistinction, preDisambScores, structureContribution, antiPenaltyFor,
      antiPenaltyOf, keywordScoreOf, analyzeDocumentFormat, addCat, countMatched,
      otherIndicatorScore, disambStage1, disambStage2, disambStage3, disambStage4, min_def]

theorem mixedTechComb_eq (c : Cat) :
    combinedScore Cat.memo (2/5) (calculateEnhancedScores mixedTechFeatures) c =
      mixedTechComb c := by
  cases c <;>
    norm_num +decide [combinedScore, mixedTech_scores, mixedTechRule, mixedTechComb]

theorem mixedTechArgmax :
    argmaxCat (combinedScore Cat.memo (2/5) (calculateEnhancedScores mixedTechFeatures)) =
      Cat.other := by
  rw [argmaxCat]
  norm_num [List.foldl, mixedTechComb_eq, mixedTechComb]

theorem memoTopProbsArgmax : argmaxCat memoTopProbs = Cat.memo := by
  rw [argmaxCat]
  norm_num [List.foldl, memoTopProbs]

/-- C1: for every input text (represented by its pattern-match features)
and every base-model outcome, each category's fused score equals
`0.55 × ml_component + 0.45 × rule_component`, where `ml_component` is
the base model's maximal probability when the category is the base
model's own arg-max prediction and the flat baseline 0.03 otherwise;
the predicted category maximizes the fused scores, and every category
strictly earlier in the fixed enumeration order (invoice, memo, legal,
report, contract, other) has a strictly smaller fused score — so ties
break toward the category that comes first in the enumeration. -/
theorem fused_scores_argmax_tiebreak (basePred : Cat) (baseConf : ℚ) (tf : TextFeatures) :
    (∀ c, combinedScore basePred baseConf (calculateEnhancedScores tf) c =
        (55/100) * (if c = basePred then baseConf else 3/100)
          + (45/100) * calculateEnhancedScores tf c)
    ∧ (∀ c, combinedScore basePred baseConf (calculateEnhancedScores tf) c ≤
        combinedScore basePred baseConf (calculateEnhancedScores tf)
          ((combinePredictions basePred baseConf (calculateEnhancedScores tf)).1))
    ∧ (∀ c, catIdx c <
          catIdx ((combinePredictions basePred baseConf (calculateEnhancedScores tf)).1) →
        combinedScore basePred baseConf (calculateEnhancedScores tf) c <
          combinedScore basePred baseConf (calculateEnhancedScores tf)
            ((combinePredictions basePred baseConf (calculateEnhancedScores tf)).1)) := by
  refine ⟨fun c => rfl, fun c => ?_, fun c h => ?_⟩
  · rw [combinePredictions_fst]
    exact argmaxCat_le _ c
  · rw [combinePredictions_fst] at h ⊢
    exact argmaxCat_first _ c h

/-- Witness for C1 at the empty text with base prediction memo at
confidence 1/2: invoice precedes the winner memo in enumeration order
and has a strictly smaller fused score. -/
theorem fused_scores_argmax_tiebreak_witness :
    combinedScore Cat.memo (1/2) (calculateEnhancedScores emptyTextFeatures) Cat.invoice <
      combinedScore Cat.memo (1/2) (calculateEnhancedScores emptyTextFeatures)
        ((combinePredictions Cat.memo (1/2) (calculateEnhancedScores emptyTextFeatures)).1) :=
  (fused_scores_argmax_tiebreak Cat.memo (1/2) emptyTextFeatures).2.2 Cat.invoice
    (by rw [combinePredictions_fst, halfMemoArgmax]; decide)

/-- C2: the reported confidence is exactly the claimed piecewise
function of the winning fused score `s` — `min(s + min((s-0.7)×1.2,
0.25), 1)` for `s > 0.7`, `min(s + min((s-0.5)×1.0, 0.2), 1)` for
`0.5 < s ≤ 0.7`, `min(s + min((s-0.4)×0.8, 0.15), 1)` for
`0.4 < s ≤ 0.5`, and `s` unchanged for `s ≤ 0.4` — followed, when the
winning category's raw rule score exceeds 0.6, by a further
`min(rule_component × 0.1, 0.1)` clamped to 1; and the pipeline's
reported confidence is this function of the winning fused score and the
winning category's rule score. -/
theorem confidence_calibration_piecewise (s ps : ℚ) (basePred : Cat) (baseConf : ℚ)
    (tf : TextFeatures) :
    finalConfidence s ps = specCalibratedConfidence s ps
    ∧ (combinePredictions basePred baseConf (calculateEnhancedScores tf)).2 =
        finalConfidence
          (combinedScore basePred baseConf (calculateEnhancedScores tf)
            (argmaxCat (combinedScore basePred baseConf (calculateEnhancedScores tf))))
          (calculateEnhancedScores tf
            (argmaxCat (combinedScore basePred baseConf (calculateEnhancedScores tf)))) := by
  constructor
  · have hbase : boostedConfidence s = specPiecewiseBase s := by
      rw [boostedConfidence, progressiveBoost, specPiecewiseBase]
      by_cases h7 : s > 7/10
      · have h4 : s > 4/10 := by linarith
        simp only [if_pos h7, if_pos h4]
      · by_cases h5 : s > 5/10
        · have h4 : s > 4/10 := by linarith
          have hand : 5/10 < s ∧ s ≤ 7/10 := ⟨h5, not_lt.mp h7⟩
          simp only [if_pos h4, if_neg h7, if_pos h5, if_pos hand]
        · by_cases h4 : s > 4/10
          · have hand : 4/10 < s ∧ s ≤ 5/10 := ⟨h4, not_lt.mp h5⟩
            have hnand : ¬(5/10 < s ∧ s ≤ 7/10) := fun hc => h5 hc.1
            simp only [if_pos h4, if_neg h7, if_neg h5, if_neg hnand, if_pos hand]
          · have hnand1 : ¬(5/10 < s ∧ s ≤ 7/10) := fun hc => h5 hc.1
            have hnand2 : ¬(4/10 < s ∧ s ≤ 5/10) := fun hc => h4 hc.1
            simp only [if_neg h4, if_neg h7, if_neg hnand1, if_neg hnand2]
    rw [finalConfidence, specCalibratedConfidence, hbase]
  · rfl

/-- C3: the reported probabilities map of every successfully classified
document is the base model's raw `predict_proba` distribution (zipped
with the model's classes), not the fused scores; and on the concrete
mixed-signal document the reported predicted category (`other`,
produced by the rule override) differs from the arg-max (`memo`) of the
reported probabilities map. -/
theorem reported_probabilities_base_distribution :
    (∀ (tl wc : ℕ) (tf : TextFeatures) (pred : Cat) (conf : ℚ) (probs : Cat → ℚ),
      (classifyOne (DocInput.mk tl wc tf (ModelApp.returns pred conf probs))).probabilities =
        sklearnClasses.map (fun c => (c, probs c)))
    ∧ (classifyOne mixedTechDoc).predicted_category = Cat.other
    ∧ (classifyOne mixedTechDoc).probabilities =
        sklearnClasses.map (fun c => (c, memoTopProbs c))
    ∧ argmaxCat memoTopProbs = Cat.memo
    ∧ ((classifyOne mixedTechDoc).predicted_category = argmaxCat memoTopProbs) = False := by
  have hpred : (classifyOne mixedTechDoc).predicted_category = Cat.other := by
    show (combinePredictions Cat.memo (2/5) (calculateEnhancedScores mixedTechFeatures)).1 =
      Cat.other
    rw [combinePredictions_fst, mixedTechArgmax]
  refine ⟨fun tl wc tf pred conf probs => rfl, hpred, rfl, memoTopProbsArgmax, ?_⟩
  rw [hpred, memoTopProbsArgmax]
  exact eq_false (by decide)

/-- C4: every classified document's reported confidence lies in [0, 1]:
on the fused path as well as on each degraded path (no model, model
raising), for any base-model outcome whose top probability is
non-negative. -/
theorem confidence_within_unit_interval (modelLoaded : Bool) (d : DocInput)
    (h : d.modelApp.valid) :
    0 ≤ (predict_single modelLoaded d).2 ∧ (predict_single modelLoaded d).2 ≤ 1
    ∧ 0 ≤ (classifyOne d).confidence ∧ (classifyOne d).confidence ≤ 1 := by
  have h01 : (0:ℚ) ≤ 1 := by norm_num
  obtain ⟨tl, wc, tf, ma⟩ := d
  cases ma with
  | raises =>
      cases modelLoaded <;> exact ⟨le_refl 0, h01, le_refl 0, h01⟩
  | returns pred conf probs =>
      have hconf : 0 ≤ conf := h
      have hkey : 0 ≤ (combinePredictions pred conf (calculateEnhancedScores tf)).2 ∧
          (combinePredictions pred conf (calculateEnhancedScores tf)).2 ≤ 1 := by
        rw [combinePredictions_snd]
        constructor
        · refine finalConfidence_nonneg _ _ ?_
          have h1 := winning_score_ge tf pred conf
          have h2 : (0:ℚ) ≤ min conf (3/100) := le_min hconf (by norm_num)
          nlinarith
        · exact finalConfidence_le_one _ _
      cases modelLoaded
      · exact ⟨le_refl 0, h01, hkey.1, hkey.2⟩
      · exact ⟨hkey.1, hkey.2, hkey.1, hkey.2⟩

/-- Witness for C4 at the empty document (base model returning the
uniform fallback, top probability 1/6 ≥ 0). -/
theorem confidence_within_unit_interval_witness :
    0 ≤ (classifyOne emptyDoc).confidence ∧ (classifyOne emptyDoc).confidence ≤ 1 := by
  have h := confidence_within_unit_interval true emptyDoc
    (by norm_num [emptyDoc, emptyTextModelApp, ModelApp.valid])
  exact ⟨h.2.2.1, h.2.2.2⟩

/-- C5 counterexample: on the keyword-dense invoice text (all 11
invoice structure patterns, the keyword cap and both invoice format
bonuses: rule score 1.95) with base prediction invoice at confidence
0.9, the winning fused score is `0.55×0.9 + 0.45×1.95 = 1.3725 > 1`,
and the calibrated confidence is clamped to 1 — strictly BELOW the
uncalibrated fused score, refuting `confidence ≥ s always`. -/
theorem calibrated_confidence_below_fused_score :
    (combinePredictions Cat.invoice (9/10) (calculateEnhancedScores invoiceHeavyFeatures)).2 <
      combinedScore Cat.invoice (9/10) (calculateEnhancedScores invoiceHeavyFeatures)
        ((combinePredictions Cat.invoice (9/10)
          (calculateEnhancedScores invoiceHeavyFeatures)).1) := by
  rw [invoiceHeavyCombine]
  show (1:ℚ) <
    combinedScore Cat.invoice (9/10) (calculateEnhancedScores invoiceHeavyFeatures) Cat.invoice
  rw [invoiceHeavyComb_eq Cat.invoice]
  norm_num [invoiceHeavyComb]

/-- C5 amended: the calibration never decreases the confidence below
`min(s, 1)`: for every input and base outcome the reported confidence
is at least the winning fused score capped at 1 (so `confidence ≥ s`
holds whenever `s ≤ 1`; when rule scores push `s` above 1 the clamp
forces `confidence = 1 < s`). -/
theorem confidence_ge_min_fused_one (basePred : Cat) (baseConf : ℚ) (tf : TextFeatures) :
    min
        (combinedScore basePred baseConf (calculateEnhancedScores tf)
          ((combinePredictions basePred baseConf (calculateEnhancedScores tf)).1)) 1 ≤
      (combinePredictions basePred baseConf (calculateEnhancedScores tf)).2 := by
  rw [combinePredictions_snd, combinePredictions_fst]
  exact finalConfidence_ge_min _ _

/-- C6 counterexample: with the base model behaving on the empty text
as spec §4.1 requires (no raise, uniform fallback distribution), the
empty document is NOT mapped to the degraded result
`(other, 0.0, {}, 0, 0)`: it is classified as contract with confidence
11/120. -/
theorem empty_text_not_degraded : (classifyOne emptyDoc = degradedResult) = False := by
  have h3 : (classifyOne emptyDoc).predicted_category = Cat.contract := by
    show (combinePredictions Cat.contract (1/6)
      (calculateEnhancedScores emptyTextFeatures)).1 = Cat.contract
    rw [combinePredictions_fst, emptyArgmax]
  refine eq_false fun h => ?_
  have h2 := congrArg DocResult.predicted_category h
  rw [h3] at h2
  exact absurd h2 (by decide)

/-- C6 amended: classifying the empty string never raises and reports
`text_length = 0` and `word_count = 0`, but the degraded tuple
`(other, 0.0, {}, 0, 0)` arises only when the base model raises on the
text; under spec §4.1's no-raise fallback (uniform distribution) the
empty document is classified normally, as `(contract, 11/120)` with the
uniform map reported. -/
theorem empty_text_classification :
    classifyOne emptyDocIfRaises = degradedResult
    ∧ (classifyOne emptyDoc).predicted_category = Cat.contract
    ∧ (classifyOne emptyDoc).confidence = 11/120
    ∧ (classifyOne emptyDoc).probabilities = sklearnClasses.map (fun c => (c, (1:ℚ)/6))
    ∧ (classifyOne emptyDoc).text_length = 0
    ∧ (classifyOne emptyDoc).word_count = 0 := by
  refine ⟨rfl, ?_, ?_, rfl, rfl, rfl⟩
  · show (combinePredictions Cat.contract (1/6)
      (calculateEnhancedScores emptyTextFeatures)).1 = Cat.contract
    rw [combinePredictions_fst, emptyArgmax]
  · show (combinePredictions Cat.contract (1/6)
      (calculateEnhancedScores emptyTextFeatures)).2 = 11/120
    rw [emptyCombine]

/-- C7 counterexample: with no model loaded the batch call returns the
empty mapping — fewer results than input documents — instead of one
fallback result per document. -/
theorem no_model_batch_loses_documents :
    (predict_documents false [("doc1.txt", emptyDoc)]).length <
      [("doc1.txt", emptyDoc)].length := by
  norm_num [predict_documents]

/-- C7 amended: with no model loaded nothing crashes; `predict_single`
falls back to `(other, 0.0)` per call, but `predict_documents` returns
the empty result mapping (`return {}`) for any batch instead of one
fallback result per document. -/
theorem no_model_fallback (d : DocInput) (docs : List (String × DocInput)) :
    predict_single false d = (Cat.other, 0) ∧ predict_documents false docs = [] :=
  ⟨rfl, rfl⟩

/-- C8: in the mixed-signal case (at least one memo indicator and at
least one technical/other indicator both match), the final adjustment
of the disambiguation layer adds the moderate boost 0.6 to other's rule
score and subtracts the strictly larger penalty 0.8 from memo's. -/
theorem mixed_signals_favor_other (tf : TextFeatures) (s : Cat → ℚ)
    (hm : 0 < tf.memoIndicatorMatched.count true)
    (ho : 0 < tf.otherIndicatorMatched.count true) :
    applyMemoOtherDistinction tf s Cat.other =
      disambStage3 (countMatched tf.technicalMatched)
        (disambStage2 (countMatched tf.memoStructureMatched)
          (otherIndicatorScore tf.otherIndicatorMatched)
          (disambStage1 (countMatched tf.memoIndicatorMatched)
            (otherIndicatorScore tf.otherIndicatorMatched) s)) Cat.other + 6/10
    ∧ applyMemoOtherDistinction tf s Cat.memo =
      disambStage3 (countMatched tf.technicalMatched)
        (disambStage2 (countMatched tf.memoStructureMatched)
          (otherIndicatorScore tf.otherIndicatorMatched)
          (disambStage1 (countMatched tf.memoIndicatorMatched)
            (otherIndicatorScore tf.otherIndicatorMatched) s)) Cat.memo - 8/10
    ∧ (6:ℚ)/10 < 8/10 := by
  have hcond : otherIndicatorScore tf.otherIndicatorMatched > 0 ∧
      countMatched tf.memoIndicatorMatched > 0 := by
    rw [otherIndicatorScore_eq, countMatched_eq]
    omega
  rw [applyMemoOtherDistinction, disambStage4, if_pos hcond]
  refine ⟨by simp +decide [addCat], by simp +decide [addCat]; ring, by norm_num⟩

/-- Witness for C8 at the concrete mixed-signal feature record with the
zero score vector. -/
theorem mixed_signals_favor_other_witness :
    applyMemoOtherDistinction mixedTechFeatures (fun _ => 0) Cat.other =
      disambStage3 (countMatched mixedTechFeatures.technicalMatched)
        (disambStage2 (countMatched mixedTechFeatures.memoStructureMatched)
          (otherIndicatorScore mixedTechFeatures.otherIndicatorMatched)
          (disambStage1 (countMatched mixedTechFeatures.memoIndicatorMatched)
            (otherIndicatorScore mixedTechFeatures.otherIndicatorMatched) (fun _ => 0)))
        Cat.other + 6/10 :=
  (mixed_signals_favor_other mixedTechFeatures (fun _ => 0) (by decide) (by decide)).1

/-- C9: for every category's pattern bank, the structural contribution
is `min(matched/total, 1) × 0.6` — in particular 0 when no pattern
matches — and each matching anti-pattern subtracts 0.4 with the total
anti-pattern penalty capped at 0.8; anti-patterns exist only for memo
and other, the four remaining categories are never penalized. -/
theorem pattern_bank_scoring_formula (ms : List Bool) (tf : TextFeatures) :
    structureContribution ms = min ((ms.count true : ℚ) / (ms.length : ℚ)) 1 * (6/10)
    ∧ (ms.count true = 0 → structureContribution ms = 0)
    ∧ antiPenaltyOf ms = min ((ms.count true : ℚ) * (4/10)) (8/10)
    ∧ antiPenaltyFor tf Cat.memo = antiPenaltyOf tf.antiMemoMatched
    ∧ antiPenaltyFor tf Cat.other = antiPenaltyOf tf.antiOtherMatched
    ∧ antiPenaltyFor tf Cat.invoice = 0
    ∧ antiPenaltyFor tf Cat.legal = 0
    ∧ antiPenaltyFor tf Cat.report = 0
    ∧ antiPenaltyFor tf Cat.contract = 0 := by
  refine ⟨?_, ?_, ?_, rfl, rfl, rfl, rfl, rfl, rfl⟩
  · rw [structureContribution, countMatched_eq]
    split_ifs with h
    · rfl
    · have h0 : ms.count true = 0 := by omega
      rw [h0]
      norm_num
  · intro h0
    rw [structureContribution, countMatched_eq, h0]
    norm_num
  · rw [antiPenaltyOf, foldl_addIf]
    norm_num

/-- Witness for C9 at the empty match list: no pattern matches and the
structural contribution is 0. -/
theorem pattern_bank_scoring_formula_witness :
    structureContribution ([] : List Bool) = 0 :=
  (pattern_bank_scoring_formula [] emptyTextFeatures).2.1 rfl

/-- C10: the accumulated rule scores of invoice, legal, report and
contract are non-negative for every text (anti-pattern and
disambiguation penalties only ever touch memo and other; every other
contribution is additive and non-negative), and the winning fused score
is at least `0.55 × 0.03 = 0.0165 > 0` whenever the base model's top
probability is at least 0.03 (which the maximum of a 6-class
distribution, ≥ 1/6, always is). -/
theorem four_categories_nonneg_winner_positive (tf : TextFeatures) (basePred : Cat)
    (baseConf : ℚ) (h : 3/100 ≤ baseConf) :
    0 ≤ calculateEnhancedScores tf Cat.invoice
    ∧ 0 ≤ calculateEnhancedScores tf Cat.legal
    ∧ 0 ≤ calculateEnhancedScores tf Cat.report
    ∧ 0 ≤ calculateEnhancedScores tf Cat.contract
    ∧ 33/2000 ≤ combinedScore basePred baseConf (calculateEnhancedScores tf)
        ((combinePredictions basePred baseConf (calculateEnhancedScores tf)).1) := by
  refine ⟨enhancedScores_nonneg tf Cat.invoice (by decide) (by decide),
    enhancedScores_nonneg tf Cat.legal (by decide) (by decide),
    enhancedScores_nonneg tf Cat.report (by decide) (by decide),
    enhancedScores_nonneg tf Cat.contract (by decide) (by decide), ?_⟩
  rw [combinePredictions_fst]
  have h1 := winning_score_ge tf basePred baseConf
  have h2 : min baseConf (3/100 : ℚ) = 3/100 := min_eq_right h
  rw [h2] at h1
  linarith

/-- Witness for C10 at the empty text with base prediction contract at
confidence 1/6 ≥ 0.03. -/
theorem four_categories_nonneg_winner_positive_witness :
    33/2000 ≤ combinedScore Cat.contract (1/6) (calculateEnhancedScores emptyTextFeatures)
        ((combinePredictions Cat.contract (1/6)
          (calculateEnhancedScores emptyTextFeatures)).1) :=
  (four_categories_nonneg_winner_positive emptyTextFeatures Cat.contract (1/6)
    (by norm_num)).2.2.2.2

end Papertrail
